import Mathlib

/-!
Verification development for the t-meter terminal day-progress meter.

The definitions below are a shallow embedding of the Rust sources
(`src/main.rs`, `src/theme.rs`, `src/config.rs`):

* Rust `&str` values are modelled as `List Char`;
* `u32` parsing (`str::parse::<u32>`) is modelled by `parseU32`, including
  the optional leading `+` sign and the overflow bound `2^32`;
* `f64` arithmetic used for bar geometry and color interpolation is
  modelled by exact rational arithmetic (`ℚ`), with `f64::round`
  (round half away from zero, on the non-negative values occurring here)
  modelled by `rustRound` and the saturating `as u8` cast by `f64toU8`;
* fallible validation returns the inductive `VResult`, carrying the exact
  error message strings produced by the Rust code.
-/

namespace TMeter

/-- Model of Rust `time_str.split(':')` on character lists.  Splitting the
empty string yields one empty part, exactly as in Rust. -/
def splitColon : List Char → List (List Char)
  | [] => [[]]
  | c :: rest =>
    if c = ':' then [] :: splitColon rest
    else
      match splitColon rest with
      | [] => [[c]]
      | p :: ps => (c :: p) :: ps

/-- Model of Rust `str::parse::<u32>()`: an optional leading `+`, then a
non-empty run of ASCII digits whose value fits in a `u32`; anything else
(including the overflow case) is a parse error, modelled as `none`. -/
def parseU32 (cs : List Char) : Option ℕ :=
  let ds := match cs with
    | '+' :: rest => rest
    | _ => cs
  if ds = [] then none
  else if ds.all (fun c => c.isDigit) then
    let v := ds.foldl (fun acc c => acc * 10 + (c.toNat - '0'.toNat)) 0
    if v < 2 ^ 32 then some v else none
  else none

/-- `parse_time` from `main.rs`: split on `:`; if there are exactly two
parts, parse each with `unwrap_or(0)` and return `h*3600 + m*60`,
otherwise return `0`.  Total by construction, with no range check. -/
def parse_time (cs : List Char) : ℕ :=
  let parts := splitColon cs
  if parts.length = 2 then
    (parseU32 (parts.getD 0 [])).getD 0 * 3600 + (parseU32 (parts.getD 1 [])).getD 0 * 60
  else 0

/-- Result of `validate_time`: either the parsed seconds value or the
error message string returned by the Rust code. -/
inductive VResult where
  | ok (n : ℕ)
  | err (msg : List Char)
deriving DecidableEq, Repr

/-- Error message `"Invalid format. Use HH:MM"`. -/
def msgFormat : List Char := ("Invalid format. Use HH:MM").data

/-- Error message `"Invalid hour"`. -/
def msgInvalidHour : List Char := ("Invalid hour").data

/-- Error message `"Invalid minute"`. -/
def msgInvalidMinute : List Char := ("Invalid minute").data

/-- Error message `"Hour must be 0-23"`. -/
def msgHourRange : List Char := ("Hour must be 0-23").data

/-- Error message `"Minute must be 0-59"`. -/
def msgMinuteRange : List Char := ("Minute must be 0-59").data

/-- `validate_time` from `main.rs`, in the exact order of the source:
part-count check, hour parse, minute parse, hour range, minute range. -/
def validate_time (cs : List Char) : VResult :=
  let parts := splitColon cs
  if parts.length = 2 then
    match parseU32 (parts.getD 0 []) with
    | none => .err msgInvalidHour
    | some h =>
      match parseU32 (parts.getD 1 []) with
      | none => .err msgInvalidMinute
      | some m =>
        if 24 ≤ h then .err msgHourRange
        else if 60 ≤ m then .err msgMinuteRange
        else .ok (h * 3600 + m * 60)
  else .err msgFormat

/-- Decimal digit string of a natural number (model of Rust's decimal
`Display` for unsigned integers). -/
def natDigits (n : ℕ) : List Char := Nat.toDigits 10 n

/-- Model of the Rust format specifier `{:02}`: the decimal digits,
zero-padded on the left to width 2. -/
def fmt2 (n : ℕ) : List Char :=
  List.replicate (2 - (natDigits n).length) '0' ++ natDigits n

/-- The display formatter used in `ui` for stored times:
`format!("{:02}:{:02}", s/3600, (s%3600)/60)`. -/
def fmtTime (s : ℕ) : List Char :=
  fmt2 (s / 3600) ++ ':' :: fmt2 (s % 3600 / 60)

/-- The zero-padded `"HH:MM"` string for a given hour and minute. -/
def mkTimeStr (h m : ℕ) : List Char := fmt2 h ++ ':' :: fmt2 m

/-- Model of the `ratatui` `Color` enum used by `theme.rs` and `main.rs`. -/
inductive RColor where
  | reset
  | black
  | red
  | green
  | yellow
  | blue
  | magenta
  | cyan
  | gray
  | darkGray
  | lightRed
  | lightGreen
  | lightYellow
  | lightBlue
  | lightMagenta
  | lightCyan
  | white
  | rgb (r g b : ℕ)
  | indexed (n : ℕ)
deriving DecidableEq, Repr

/-- Whether a color is the `Rgb` variant. -/
def isRgb : RColor → Bool
  | .rgb _ _ _ => true
  | _ => false

/-- The part of a `ratatui` `Style` that the embedded code manipulates:
an optional foreground color (`Style::default().fg(..)`) and the `BOLD`
modifier.  Style equality is exact, as in the source's `!=` comparison. -/
structure RStyle where
  fg : Option RColor
  bold : Bool
deriving DecidableEq, Repr

/-- `Style::default()`. -/
def defaultStyle : RStyle := ⟨none, false⟩

/-- `Style::default().fg(c)`. -/
def fgStyle (c : RColor) : RStyle := ⟨some c, false⟩

/-- `Style::default().fg(c).add_modifier(Modifier::BOLD)`. -/
def fgBoldStyle (c : RColor) : RStyle := ⟨some c, true⟩

/-- `ColorScheme` from `theme.rs`. -/
structure ColorScheme where
  background : Option RColor
  foreground : RColor
  title : RColor
  progress_start : RColor
  progress_end : RColor
  progress_empty : RColor
  progress_indicator : RColor
  marker : RColor
  marker_label : RColor
  quote : RColor
  legend_elapsed : RColor
  legend_remaining : RColor
deriving DecidableEq, Repr

/-- `ThemeMode` from `theme.rs`. -/
inductive ThemeMode where
  | light
  | dark
deriving DecidableEq, Repr

/-- `ThemeMode::toggle`. -/
def ThemeMode.toggle : ThemeMode → ThemeMode
  | .light => .dark
  | .dark => .light

/-- `Theme` from `theme.rs`. -/
structure Theme where
  name : List Char
  light : ColorScheme
  dark : ColorScheme
deriving DecidableEq, Repr

/-- `Theme::get_colors`. -/
def Theme.get_colors (t : Theme) (mode : ThemeMode) : ColorScheme :=
  match mode with
  | .light => t.light
  | .dark => t.dark

/-- `get_default_theme` from `theme.rs`. -/
def get_default_theme : Theme :=
  { name := ("default").data
    light :=
      { background := none
        foreground := .white
        title := .white
        progress_start := .white
        progress_end := .white
        progress_empty := .darkGray
        progress_indicator := .yellow
        marker := .white
        marker_label := .white
        quote := .gray
        legend_elapsed := .white
        legend_remaining := .darkGray }
    dark :=
      { background := none
        foreground := .white
        title := .cyan
        progress_start := .cyan
        progress_end := .blue
        progress_empty := .rgb 40 40 40
        progress_indicator := .yellow
        marker := .gray
        marker_label := .darkGray
        quote := .rgb 100 100 100
        legend_elapsed := .cyan
        legend_remaining := .rgb 60 60 60 } }

/-- `get_ocean_theme` from `theme.rs`. -/
def get_ocean_theme : Theme :=
  { name := ("ocean").data
    light :=
      { background := none
        foreground := .rgb 0 102 153
        title := .rgb 0 102 153
        progress_start := .rgb 0 153 204
        progress_end := .rgb 0 204 255
        progress_empty := .rgb 204 229 255
        progress_indicator := .rgb 255 153 0
        marker := .rgb 0 102 153
        marker_label := .rgb 0 77 128
        quote := .rgb 102 153 179
        legend_elapsed := .rgb 0 153 204
        legend_remaining := .rgb 153 204 229 }
    dark :=
      { background := none
        foreground := .rgb 102 204 255
        title := .rgb 102 204 255
        progress_start := .rgb 51 153 255
        progress_end := .rgb 0 255 255
        progress_empty := .rgb 0 51 102
        progress_indicator := .rgb 255 204 0
        marker := .rgb 153 204 255
        marker_label := .rgb 102 153 204
        quote := .rgb 77 128 153
        legend_elapsed := .rgb 51 153 255
        legend_remaining := .rgb 51 102 153 } }

/-- `get_forest_theme` from `theme.rs`. -/
def get_forest_theme : Theme :=
  { name := ("forest").data
    light :=
      { background := none
        foreground := .rgb 34 139 34
        title := .rgb 34 139 34
        progress_start := .rgb 50 205 50
        progress_end := .rgb 154 205 50
        progress_empty := .rgb 193 225 193
        progress_indicator := .rgb 255 215 0
        marker := .rgb 34 139 34
        marker_label := .rgb 0 100 0
        quote := .rgb 107 142 35
        legend_elapsed := .rgb 50 205 50
        legend_remaining := .rgb 144 238 144 }
    dark :=
      { background := none
        foreground := .rgb 144 238 144
        title := .rgb 144 238 144
        progress_start := .rgb 34 139 34
        progress_end := .rgb 0 255 127
        progress_empty := .rgb 25 51 25
        progress_indicator := .rgb 255 255 102
        marker := .rgb 107 142 35
        marker_label := .rgb 85 107 47
        quote := .rgb 85 107 47
        legend_elapsed := .rgb 34 139 34
        legend_remaining := .rgb 60 90 60 } }

/-- `get_sunset_theme` from `theme.rs`. -/
def get_sunset_theme : Theme :=
  { name := ("sunset").data
    light :=
      { background := none
        foreground := .rgb 255 99 71
        title := .rgb 255 99 71
        progress_start := .rgb 255 140 0
        progress_end := .rgb 255 69 0
        progress_empty := .rgb 255 228 196
        progress_indicator := .rgb 255 215 0
        marker := .rgb 255 99 71
        marker_label := .rgb 205 92 92
        quote := .rgb 188 143 143
        legend_elapsed := .rgb 255 140 0
        legend_remaining := .rgb 255 182 193 }
    dark :=
      { background := none
        foreground := .rgb 255 182 193
        title := .rgb 255 182 193
        progress_start := .rgb 255 99 71
        progress_end := .rgb 255 20 147
        progress_empty := .rgb 102 51 51
        progress_indicator := .rgb 255 255 102
        marker := .rgb 255 140 0
        marker_label := .rgb 205 92 92
        quote := .rgb 139 69 19
        legend_elapsed := .rgb 255 99 71
        legend_remaining := .rgb 128 64 64 } }

/-- `get_monochrome_theme` from `theme.rs`. -/
def get_monochrome_theme : Theme :=
  { name := ("monochrome").data
    light :=
      { background := none
        foreground := .black
        title := .black
        progress_start := .rgb 20 20 20
        progress_end := .rgb 100 100 100
        progress_empty := .rgb 220 220 220
        progress_indicator := .rgb 0 0 0
        marker := .rgb 40 40 40
        marker_label := .rgb 20 20 20
        quote := .rgb 80 80 80
        legend_elapsed := .rgb 40 40 40
        legend_remaining := .rgb 160 160 160 }
    dark :=
      { background := none
        foreground := .white
        title := .white
        progress_start := .rgb 220 220 220
        progress_end := .rgb 160 160 160
        progress_empty := .rgb 50 50 50
        progress_indicator := .rgb 255 255 255
        marker := .rgb 220 220 220
        marker_label := .rgb 240 240 240
        quote := .rgb 180 180 180
        legend_elapsed := .rgb 220 220 220
        legend_remaining := .rgb 100 100 100 } }

/-- `get_contrast_theme` from `theme.rs`. -/
def get_contrast_theme : Theme :=
  { name := ("contrast").data
    light :=
      { background := some .white
        foreground := .black
        title := .black
        progress_start := .blue
        progress_end := .blue
        progress_empty := .gray
        progress_indicator := .red
        marker := .black
        marker_label := .black
        quote := .black
        legend_elapsed := .blue
        legend_remaining := .gray }
    dark :=
      { background := some .black
        foreground := .white
        title := .white
        progress_start := .cyan
        progress_end := .cyan
        progress_empty := .darkGray
        progress_indicator := .yellow
        marker := .white
        marker_label := .white
        quote := .white
        legend_elapsed := .cyan
        legend_remaining := .darkGray } }

/-- `get_all_themes` from `theme.rs`. -/
def get_all_themes : List Theme :=
  [get_default_theme, get_ocean_theme, get_forest_theme, get_sunset_theme,
   get_monochrome_theme, get_contrast_theme]

/-- `ProgressBarStyle` from `config.rs`. -/
inductive ProgressBarStyle where
  | gradient
  | grainy
  | analog
deriving DecidableEq, Repr

/-- `ProgressBarStyle::cycle`. -/
def ProgressBarStyle.cycle : ProgressBarStyle → ProgressBarStyle
  | .gradient => .grainy
  | .grainy => .analog
  | .analog => .gradient

/-- `InputMode` from `main.rs`. -/
inductive InputMode where
  | normal
  | editingWakeUp
  | editingBedTime
  | help
deriving DecidableEq, Repr

/-- Key codes relevant to the editing-mode branch of `run_app`. -/
inductive KeyCode where
  | enter
  | esc
  | backspace
  | char (c : Char)
  | other
deriving DecidableEq, Repr

/-- The fields of `AppState` (with the `Config` fields it owns inlined)
that the key-event handler and theme cycling read or write. -/
structure AppState where
  currentThemeIndex : ℕ
  themeMode : ThemeMode
  progressBarStyle : ProgressBarStyle
  themeName : List Char
  wakeUpTime : List Char
  bedTime : List Char
  inputMode : InputMode
  inputBuffer : List Char
  errorMessage : Option (List Char)
deriving DecidableEq, Repr

/-- `AppState::cycle_theme`: advance the theme index by one modulo the
number of themes and record the new theme's name in the config.  The
`config.save()` call is external I/O and has no effect on the state. -/
def cycle_theme (st : AppState) : AppState :=
  let i := (st.currentThemeIndex + 1) % get_all_themes.length
  { st with
    currentThemeIndex := i
    themeName := (get_all_themes.getD i get_default_theme).name }

/-- The `InputMode::EditingWakeUp | InputMode::EditingBedTime` branch of
the key-event `match` in `run_app` (lines 189-222 of `main.rs`).  Note
that on Enter the source clears `input_buffer` after the `match` on the
validation result, in the success and failure branches alike. -/
def handleEditingKey (st : AppState) (k : KeyCode) : AppState :=
  match k with
  | .enter =>
    let st' :=
      match validate_time st.inputBuffer with
      | .ok _ =>
        let st1 :=
          match st.inputMode with
          | .editingWakeUp => { st with wakeUpTime := st.inputBuffer }
          | .editingBedTime => { st with bedTime := st.inputBuffer }
          | _ => st
        { st1 with inputMode := .normal, errorMessage := none }
      | .err e => { st with errorMessage := some e }
    { st' with inputBuffer := [] }
  | .esc => { st with inputMode := .normal, inputBuffer := [], errorMessage := none }
  | .backspace => { st with inputBuffer := st.inputBuffer.dropLast }
  | .char c =>
    if c.isDigit ∨ c = ':' then { st with inputBuffer := st.inputBuffer ++ [c] }
    else st
  | .other => st

attribute [local semireducible] Rat.add Rat.mul Rat.inv Rat.sub

/-- Truncation toward zero of a non-negative rational to a natural
number; negative inputs give `0`.  Models the integral part taken by a
Rust `as` cast from `f64` (on the non-negative values occurring here). -/
def ratTrunc (q : ℚ) : ℕ := q.num.toNat / q.den

/-- Model of Rust `f64::round()` followed by an `as usize` cast, for the
non-negative values occurring in the source: round half away from zero,
that is `⌊q + 1/2⌋`. -/
def rustRound (q : ℚ) : ℕ := ratTrunc (q + 1 / 2)

/-- Model of Rust's saturating `as u8` cast from `f64`: truncate toward
zero, clamping to `[0, 255]`. -/
def f64toU8 (q : ℚ) : ℕ := min (ratTrunc q) 255

/-- The pointer column of `ui`:
`(ratio * width as f64).round() as usize`, then `.min(width - 1)`. -/
def timePos (s w : ℕ) : ℕ :=
  min (rustRound ((s : ℚ) / 86400 * w)) (w - 1)

/-- `filled_width` of `ui`: `(ratio * width as f64).round() as usize`. -/
def filledWidth (s w : ℕ) : ℕ := rustRound ((s : ℚ) / 86400 * w)

/-- The wake/bed marker column used inside the bar loop of `ui`
(divisor `width`). -/
def barPos (sec w : ℕ) : ℕ := rustRound ((sec : ℚ) / 86400 * w)

/-- The marker column used for the tick/time/label rows of `ui`
(divisor `width - 1`, computed in `f64`). -/
def tickPos (sec w : ℕ) : ℕ := rustRound ((sec : ℚ) / 86400 * ((w : ℚ) - 1))

/-- The centered start offset used by `ui` for every placed text:
`if pos >= len/2 { pos - len/2 } else { 0 }` then `.min(w.saturating_sub(len))`. -/
def startOf (pos len w : ℕ) : ℕ :=
  min (if len / 2 ≤ pos then pos - len / 2 else 0) (w - len)

/-- The per-character write loop of `ui`: write `cells` starting at
absolute column `start`, skipping any column `≥ w`
(the `if start + i < width` guard). -/
def writeCells {α : Type} (w : ℕ) : ℕ → List α → List α → List α
  | _, [], row => row
  | start, c :: rest, row =>
    writeCells w (start + 1) rest (if start < w then row.set start c else row)

/-- One centered text placement of `ui` (used for the floating time, the
marker time texts, the marker labels, and — with a replicated style — the
parallel style row): guard `pos < width`, compute the clamped start
offset, guard `start < width`, then write the cells. -/
def placeCells {α : Type} (w pos : ℕ) (cells : List α) (row : List α) : List α :=
  if pos < w then
    if startOf pos cells.length w < w then
      writeCells w (startOf pos cells.length w) cells row
    else row
  else row

/-- The noon time text `"12:00"`. -/
def noonText : List Char := ("12:00").data

/-- The character contents of the marker time row of `ui`: the three
markers' time texts placed, in the source's fixed order wake, noon, bed,
centered on their tick columns into a blank row of width `w`. -/
def timesChars (wakeS bedS : ℕ) (wakeDisp bedDisp : List Char) (w : ℕ) : List Char :=
  let row0 := List.replicate w ' '
  let row1 := placeCells w (tickPos wakeS w) wakeDisp row0
  let row2 := placeCells w (tickPos 43200 w) noonText row1
  placeCells w (tickPos bedS w) bedDisp row2

/-- The parallel style row of the marker time row of `ui`
(`times_styles`), initialised with `Style::default().fg(colors.marker)`
and written by the same placement loop with each marker's style. -/
def timesStyles (wakeS bedS : ℕ) (wakeDisp bedDisp : List Char)
    (wakeSt noonSt bedSt fillSt : RStyle) (w : ℕ) : List RStyle :=
  let row0 := List.replicate w fillSt
  let row1 := placeCells w (tickPos wakeS w) (List.replicate wakeDisp.length wakeSt) row0
  let row2 := placeCells w (tickPos 43200 w) (List.replicate noonText.length noonSt) row1
  placeCells w (tickPos bedS w) (List.replicate bedDisp.length bedSt) row2

/-- `interpolate_color` from `ui`: linear RGB interpolation, falling back
to the start color when either endpoint is not `Color::Rgb`. -/
def interpolate_color (start stop : RColor) (t : ℚ) : RColor :=
  match start, stop with
  | .rgb r1 g1 b1, .rgb r2 g2 b2 =>
    .rgb (f64toU8 ((r1 : ℚ) + ((r2 : ℚ) - (r1 : ℚ)) * t))
      (f64toU8 ((g1 : ℚ) + ((g2 : ℚ) - (g1 : ℚ)) * t))
      (f64toU8 ((b1 : ℚ) + ((b2 : ℚ) - (b1 : ℚ)) * t))
  | _, _ => start

/-- The base glyph and style of column `i` of the progress bar, per the
active `ProgressBarStyle` (the `match` of lines 346-370 of `main.rs`). -/
def baseCell (pbs : ProgressBarStyle) (colors : ColorScheme) (w filled i : ℕ) :
    Char × RStyle :=
  match pbs with
  | .gradient =>
    if i < filled then
      ('█', fgStyle (interpolate_color colors.progress_start colors.progress_end
        ((i : ℚ) / (w : ℚ))))
    else ('█', fgStyle colors.progress_empty)
  | .grainy =>
    if i < filled then ('▓', fgStyle colors.progress_end)
    else ('░', fgStyle colors.progress_empty)
  | .analog =>
    if i < filled then ('║', fgStyle colors.progress_end)
    else ('│', fgStyle colors.progress_empty)

/-- The progress-bar line of `ui`: one span is pushed per column, with
the pointer and wake/bed marker overlays taking priority over the base
cell.  No merging of adjacent equal styles is performed here. -/
def barSpans (pbs : ProgressBarStyle) (colors : ColorScheme)
    (w filled tPos wPos bPos : ℕ) : List (List Char × RStyle) :=
  (List.range w).map fun i =>
    if i = tPos then (['┃'], fgBoldStyle colors.progress_indicator)
    else if i = wPos ∨ i = bPos then (['│'], fgBoldStyle colors.marker)
    else ([(baseCell pbs colors w filled i).1], (baseCell pbs colors w filled i).2)

/-- The progress-bar line as assembled by `ui` from the current seconds
value and the stored time strings. -/
def uiBarSpans (pbs : ProgressBarStyle) (colors : ColorScheme)
    (s w : ℕ) (wakeT bedT : List Char) : List (List Char × RStyle) :=
  barSpans pbs colors w (filledWidth s w) (timePos s w)
    (barPos (parse_time wakeT) w) (barPos (parse_time bedT) w)

/-- The span-merging loop of `ui` (lines 476-484): accumulate characters
while the per-column style is unchanged; emit the accumulated run when
the style changes, and emit the final run at the end. -/
def mergeAux (cur : List Char) (curStyle : RStyle) :
    List (Char × RStyle) → List (List Char × RStyle)
  | [] => [(cur, curStyle)]
  | (c, st) :: rest =>
    if st = curStyle then mergeAux (cur ++ [c]) curStyle rest
    else (cur, curStyle) :: mergeAux [c] st rest

/-- The merged spans of the marker time row: the merge loop seeded with
`times_styles[0]` and an empty accumulator, run over the zipped
character/style columns. -/
def mergeSpans (chars : List Char) (styles : List RStyle) :
    List (List Char × RStyle) :=
  mergeAux [] (styles.headD defaultStyle) (chars.zip styles)

/-- The style shown for the wake time text (`wake_style` in `ui`):
yellow bold while editing the wake time, otherwise the marker color. -/
def wakeStyleOf (st : AppState) (colors : ColorScheme) : RStyle :=
  if st.inputMode = .editingWakeUp then fgBoldStyle .yellow else fgStyle colors.marker

/-- The style shown for the bed time text (`bed_style` in `ui`). -/
def bedStyleOf (st : AppState) (colors : ColorScheme) : RStyle :=
  if st.inputMode = .editingBedTime then fgBoldStyle .yellow else fgStyle colors.marker

/-- `wake_time_display` in `ui`: the live input buffer while editing,
otherwise the stored time re-formatted from its parsed seconds. -/
def wakeTimeDisplay (st : AppState) : List Char :=
  if st.inputMode = .editingWakeUp then st.inputBuffer
  else fmtTime (parse_time st.wakeUpTime)

/-- `bed_time_display` in `ui`. -/
def bedTimeDisplay (st : AppState) : List Char :=
  if st.inputMode = .editingBedTime then st.inputBuffer
  else fmtTime (parse_time st.bedTime)

/-- The character row of the marker time line as assembled by `ui` from
the application state. -/
def uiTimesChars (st : AppState) (w : ℕ) : List Char :=
  timesChars (parse_time st.wakeUpTime) (parse_time st.bedTime)
    (wakeTimeDisplay st) (bedTimeDisplay st) w

/-- The style row of the marker time line as assembled by `ui` from the
application state and the active color scheme. -/
def uiTimesStyles (st : AppState) (colors : ColorScheme) (w : ℕ) : List RStyle :=
  timesStyles (parse_time st.wakeUpTime) (parse_time st.bedTime)
    (wakeTimeDisplay st) (bedTimeDisplay st)
    (wakeStyleOf st colors) (fgStyle colors.marker) (bedStyleOf st colors)
    (fgStyle colors.marker) w

/-- The styled spans emitted by `ui` for the marker time line: the
per-column characters and styles, merged into runs. -/
def uiTimesSpans (st : AppState) (colors : ColorScheme) (w : ℕ) :
    List (List Char × RStyle) :=
  mergeSpans (uiTimesChars st w) (uiTimesStyles st colors w)

/-- The columns actually written when a text is placed centered on a
marker at `sec` in a row of width `w`. -/
def covers (sec : ℕ) (text : List Char) (w i : ℕ) : Prop :=
  tickPos sec w < w ∧
  startOf (tickPos sec w) text.length w ≤ i ∧
  i < startOf (tickPos sec w) text.length w + text.length ∧
  i < w

instance (sec : ℕ) (text : List Char) (w i : ℕ) : Decidable (covers sec text w i) := by
  unfold covers
  infer_instance

/-- The character a marker's text would put at column `i` of the row. -/
def charOf (sec : ℕ) (text : List Char) (w i : ℕ) : Char :=
  text.getD (i - startOf (tickPos sec w) text.length w) ' '

/-- Insertion, by ascending seconds value, into a seconds-sorted marker
list.  Modelled from the spec: placement order "must follow a fixed
precedence (chronological order of the underlying seconds value)". -/
def insertBySeconds (m : ℕ × List Char) :
    List (ℕ × List Char) → List (ℕ × List Char)
  | [] => [m]
  | x :: xs => if m.1 ≤ x.1 then m :: x :: xs else x :: insertBySeconds m xs

/-- Markers sorted by ascending seconds value (insertion sort).
Modelled from the spec's required chronological placement precedence. -/
def sortBySeconds (ms : List (ℕ × List Char)) : List (ℕ × List Char) :=
  ms.foldr insertBySeconds []

/-- Modelled from the spec: the marker time row that placement in
chronological order of the seconds values would produce — markers sorted
ascending by seconds, then placed in that order, so that the
chronologically latest placement lands last and overwrites at overlaps. -/
def timesCharsChrono (wakeS bedS : ℕ) (wakeDisp bedDisp : List Char) (w : ℕ) :
    List Char :=
  let ms := sortBySeconds [(wakeS, wakeDisp), (43200, noonText), (bedS, bedDisp)]
  ms.foldl (fun row m => placeCells w (tickPos m.1 w) m.2 row) (List.replicate w ' ')

/-- A concrete application state: the user pressed `w` (seeding the
buffer with the stored `"07:00"`), erased it, and typed `99:00`. -/
def exStateC1 : AppState :=
  { currentThemeIndex := 0
    themeMode := .light
    progressBarStyle := .analog
    themeName := ("default").data
    wakeUpTime := ("07:00").data
    bedTime := ("23:00").data
    inputMode := .editingWakeUp
    inputBuffer := ("99:00").data
    errorMessage := none }

/-- A concrete application state in normal viewing mode, on the third
theme, used to exercise theme cycling and the rendered time line. -/
def exStateNormal : AppState :=
  { currentThemeIndex := 2
    themeMode := .light
    progressBarStyle := .analog
    themeName := ("forest").data
    wakeUpTime := ("07:00").data
    bedTime := ("23:00").data
    inputMode := .normal
    inputBuffer := []
    errorMessage := none }

example : timePos 43200 20 = 10 := by decide
example : tickPos 46800 10 = 5 := by decide
example : tickPos 43200 10 = 5 := by decide
example : tickPos 82800 10 = 9 := by decide
example :
    timesChars 46800 82800 ("13:00").data ("23:00").data 10 =
      (" ".data ++ " ".data ++ " ".data ++ ("1223:00").data) := by decide
example :
    timesCharsChrono 46800 82800 ("13:00").data ("23:00").data 10 =
      (" ".data ++ " ".data ++ " ".data ++ ("1323:00").data) := by decide

example : parse_time ("99:00").data = 356400 := by decide
example : parse_time ("ab:30").data = 1800 := by decide
example : parse_time ("123").data = 0 := by decide
example : validate_time ("99:00").data = .err msgHourRange := by decide
example : validate_time ("99:aa").data = .err msgInvalidMinute := by decide
example : validate_time ("06:30").data = .ok 23400 := by decide
example : fmtTime 23400 = ("06:30").data := by decide
example : mkTimeStr 6 30 = ("06:30").data := by decide

/-! ### Properties of the cell-writing loop -/

theorem writeCells_length {α : Type} (w : ℕ) (cells : List α) :
    ∀ (start : ℕ) (row : List α), (writeCells w start cells row).length = row.length := by
  induction cells with
  | nil => intro start row; rfl
  | cons c rest ih =>
    intro start row
    simp only [writeCells]
    rw [ih]
    split <;> simp

theorem writeCells_getElem?_outside {α : Type} (w : ℕ) (cells : List α) :
    ∀ (start : ℕ) (row : List α) (i : ℕ),
      i < start ∨ start + cells.length ≤ i →
      (writeCells w start cells row)[i]? = row[i]? := by
  induction cells with
  | nil => intro start row i _; rfl
  | cons c rest ih =>
    intro start row i h
    simp only [writeCells]
    rw [ih (start + 1) _ i (by simp at h; omega)]
    split
    · exact List.getElem?_set_ne (by simp at h; omega)
    · rfl

theorem writeCells_getElem?_of_w_le {α : Type} (w : ℕ) (cells : List α) :
    ∀ (start : ℕ) (row : List α) (i : ℕ), w ≤ i →
      (writeCells w start cells row)[i]? = row[i]? := by
  induction cells with
  | nil => intro start row i _; rfl
  | cons c rest ih =>
    intro start row i h
    simp only [writeCells]
    rw [ih (start + 1) _ i h]
    split
    · exact List.getElem?_set_ne (by omega)
    · rfl

theorem writeCells_getElem?_written {α : Type} (w : ℕ) (cells : List α) :
    ∀ (start : ℕ) (row : List α) (i : ℕ),
      start ≤ i → i < start + cells.length → i < w → i < row.length →
      (writeCells w start cells row)[i]? = cells[i - start]? := by
  induction cells with
  | nil => intro start row i h1 h2 _ _; simp at h2; omega
  | cons c rest ih =>
    intro start row i h1 h2 h3 h4
    simp only [writeCells]
    by_cases he : i = start
    · subst he
      rw [writeCells_getElem?_outside w rest (i + 1) _ i (Or.inl (by omega))]
      rw [if_pos h3, Nat.sub_self]
      simp only [List.getElem?_cons_zero]
      exact List.getElem?_set_eq_of_lt c h4
    · have hlt : start < i := lt_of_le_of_ne h1 (Ne.symm he)
      have hlen : i < (if start < w then row.set start c else row).length := by
        split <;> simp [h4]
      rw [ih (start + 1) _ i (by omega) (by simp at h2 ⊢; omega) h3 hlen]
      have : i - start = (i - (start + 1)) + 1 := by omega
      rw [this, List.getElem?_cons_succ]

theorem placeCells_length {α : Type} (w pos : ℕ) (cells row : List α) :
    (placeCells w pos cells row).length = row.length := by
  unfold placeCells
  split
  · split
    · exact writeCells_length w cells _ row
    · rfl
  · rfl

theorem placeCells_getElem?_outside {α : Type} (w pos : ℕ) (cells row : List α) (i : ℕ)
    (h : i < startOf pos cells.length w ∨ startOf pos cells.length w + cells.length ≤ i) :
    (placeCells w pos cells row)[i]? = row[i]? := by
  unfold placeCells
  split
  · split
    · exact writeCells_getElem?_outside w cells _ row i h
    · rfl
  · rfl

theorem placeCells_getElem?_of_pos_ge {α : Type} (w pos : ℕ) (cells row : List α)
    (h : w ≤ pos) : placeCells w pos cells row = row := by
  unfold placeCells
  rw [if_neg (by omega)]

theorem placeCells_getElem?_of_w_le {α : Type} (w pos : ℕ) (cells row : List α) (i : ℕ)
    (h : w ≤ i) : (placeCells w pos cells row)[i]? = row[i]? := by
  unfold placeCells
  split
  · split
    · exact writeCells_getElem?_of_w_le w cells _ row i h
    · rfl
  · rfl

theorem placeCells_getElem?_written {α : Type} (w pos : ℕ) (cells row : List α) (i : ℕ)
    (hlen : row.length = w) (h1 : pos < w)
    (h2 : startOf pos cells.length w ≤ i)
    (h3 : i < startOf pos cells.length w + cells.length) (h4 : i < w) :
    (placeCells w pos cells row)[i]? = cells[i - startOf pos cells.length w]? := by
  unfold placeCells
  rw [if_pos h1, if_pos (lt_of_le_of_lt h2 h4)]
  exact writeCells_getElem?_written w cells _ row i h2 h3 h4 (by omega)

/-! ### Properties of the span-merging loop -/

theorem mergeAux_flatten (pairs : List (Char × RStyle)) :
    ∀ (cur : List Char) (st : RStyle),
      ((mergeAux cur st pairs).map Prod.fst).flatten = cur ++ pairs.map Prod.fst := by
  induction pairs with
  | nil => intro cur st; simp [mergeAux]
  | cons p rest ih =>
    intro cur st
    obtain ⟨c, s⟩ := p
    simp only [mergeAux]
    split
    · rw [ih]; simp
    · simp only [List.map_cons, List.flatten_cons]
      rw [ih]; simp

theorem mergeAux_head (pairs : List (Char × RStyle)) :
    ∀ (cur : List Char) (st : RStyle),
      ((mergeAux cur st pairs).map Prod.snd).head? = some st := by
  induction pairs with
  | nil => intro cur st; rfl
  | cons p rest ih =>
    intro cur st
    obtain ⟨c, s⟩ := p
    simp only [mergeAux]
    split
    · exact ih (cur ++ [c]) st
    · rfl

theorem mergeAux_chain (pairs : List (Char × RStyle)) :
    ∀ (cur : List Char) (st : RStyle),
      List.Chain' (fun a b => a ≠ b) ((mergeAux cur st pairs).map Prod.snd) := by
  induction pairs with
  | nil => intro cur st; simp [mergeAux]
  | cons p rest ih =>
    intro cur st
    obtain ⟨c, s⟩ := p
    simp only [mergeAux]
    split
    · exact ih (cur ++ [c]) st
    · rename_i hne
      simp only [List.map_cons]
      rw [List.chain'_cons']
      refine ⟨?_, ih [c] s⟩
      intro y hy
      rw [mergeAux_head] at hy
      simp at hy
      subst hy
      exact fun hcontra => hne (hcontra ▸ rfl)

/-! ### Claim theorems -/

/-- Claim C10: `parse_time` (the unvalidated parser used for display and
marker positioning) is total — in this embedding it is a plain function
on all strings — returns `0` when the string does not split on `:` into
exactly two parts, treats each unparsable part as `0` (`"ab:30"` gives
`1800`, `"12:xx"` gives `43200`), and performs no range check, so the
stored string `"99:00"` yields `356400 > 86400`. -/
theorem C10_parse_time_total_unchecked :
    (∀ cs : List Char, (splitColon cs).length ≠ 2 → parse_time cs = 0) ∧
    parse_time ("99:00").data = 356400 ∧
    86400 < parse_time ("99:00").data ∧
    parse_time ("ab:30").data = 1800 ∧
    parse_time ("12:xx").data = 43200 := by
  refine ⟨?_, by decide, by decide, by decide, by decide⟩
  intro cs h
  simp [parse_time, h]

/-- Witness for C10 at the concrete input `"123"`, which has no colon. -/
theorem C10_witness :
    (splitColon ("123").data).length ≠ 2 ∧ parse_time ("123").data = 0 :=
  ⟨by decide, C10_parse_time_total_unchecked.1 ("123").data (by decide)⟩

/-- Claim C5: for every seconds value `s < 86400` and width `w ≥ 2`, the
pointer column is `round((s/86400) * w)` clamped to `[0, w-1]` (the code
computes `(ratio * w).round()` then `.min(w - 1)`; the lower bound `0` is
inherent in the unsigned type), and in particular `pos < w`. -/
theorem C5_pointer_column (s w : ℕ) (hs : s < 86400) (hw : 2 ≤ w) :
    timePos s w = min (rustRound ((s : ℚ) / 86400 * w)) (w - 1) ∧
    timePos s w < w := by
  refine ⟨rfl, ?_⟩
  have h1 : timePos s w ≤ w - 1 := Nat.min_le_right _ _
  omega

/-- Witness for C5 at noon with width 20 (pointer column 10). -/
theorem C5_witness :
    43200 < 86400 ∧ 2 ≤ 20 ∧ timePos 43200 20 < 20 ∧ timePos 43200 20 = 10 :=
  ⟨by decide, by decide, (C5_pointer_column 43200 20 (by decide) (by decide)).2,
    by decide⟩

/-- The theme index after one cycle: `(i + 1) % 6`, since there are six
available themes. -/
theorem cycle_theme_index (st : AppState) :
    (cycle_theme st).currentThemeIndex = (st.currentThemeIndex + 1) % 6 := rfl

/-- Iterating `cycle_theme` adds `n` to the index, modulo 6. -/
theorem cycle_theme_iterate (n : ℕ) :
    ∀ st : AppState, st.currentThemeIndex < 6 →
      (cycle_theme^[n] st).currentThemeIndex = (st.currentThemeIndex + n) % 6 := by
  induction n with
  | zero => intro st h; simp [Nat.mod_eq_of_lt h]
  | succ n ih =>
    intro st h
    rw [Function.iterate_succ_apply]
    rw [ih (cycle_theme st) (by rw [cycle_theme_index]; omega)]
    rw [cycle_theme_index]
    omega

/-- Claim C9: there are six available themes; cycling advances the theme
index by one modulo six; hence from any valid starting index, applying
`cycle_theme` any number of times that is a multiple of six returns the
index to its original value. -/
theorem C9_cycle_theme :
    get_all_themes.length = 6 ∧
    (∀ st : AppState, (cycle_theme st).currentThemeIndex =
      (st.currentThemeIndex + 1) % get_all_themes.length) ∧
    (∀ (st : AppState) (n : ℕ), st.currentThemeIndex < get_all_themes.length →
      n % 6 = 0 → (cycle_theme^[n] st).currentThemeIndex = st.currentThemeIndex) := by
  refine ⟨rfl, fun st => rfl, ?_⟩
  intro st n hlt hn
  have hlen : get_all_themes.length = 6 := rfl
  rw [hlen] at hlt
  rw [cycle_theme_iterate n st hlt]
  omega

/-- Witness for C9: twelve cycles from index 2 return to index 2. -/
theorem C9_witness :
    exStateNormal.currentThemeIndex < get_all_themes.length ∧ 12 % 6 = 0 ∧
    (cycle_theme^[12] exStateNormal).currentThemeIndex =
      exStateNormal.currentThemeIndex :=
  ⟨by decide, by decide, C9_cycle_theme.2.2 exStateNormal 12 (by decide) (by decide)⟩

/-- Claim C1 (amended): when Enter is pressed in `EditingWakeUp` mode and
validation of the buffer fails, the mode remains `EditingWakeUp`, the
stored wake-up time is unchanged, the error message is set to the
validation error — for the buffer `"99:00"` the hour-range error
`"Hour must be 0-23"` — but the input buffer is cleared (the source
clears it after the validation `match`, on failure as well as success),
rather than remaining as the claim states. -/
theorem C1_invalid_wake_enter :
    (∀ (st : AppState) (e : List Char),
      st.inputMode = InputMode.editingWakeUp →
      validate_time st.inputBuffer = VResult.err e →
      (handleEditingKey st KeyCode.enter).inputMode = InputMode.editingWakeUp ∧
      (handleEditingKey st KeyCode.enter).wakeUpTime = st.wakeUpTime ∧
      (handleEditingKey st KeyCode.enter).errorMessage = some e ∧
      (handleEditingKey st KeyCode.enter).inputBuffer = []) ∧
    validate_time ("99:00").data = VResult.err msgHourRange := by
  refine ⟨?_, by decide⟩
  intro st e hmode hval
  simp [handleEditingKey, hval, hmode]

/-- Counterexample for C1 as stated: in the concrete scenario of the
claim (mode `EditingWakeUp`, buffer `"99:00"`, Enter) validation fails
with the hour-range error and the mode and stored time are preserved,
but the input buffer does not remain — it is cleared. -/
theorem C1_counterexample :
    exStateC1.inputMode = InputMode.editingWakeUp ∧
    exStateC1.inputBuffer = ("99:00").data ∧
    validate_time exStateC1.inputBuffer = VResult.err msgHourRange ∧
    (handleEditingKey exStateC1 KeyCode.enter).inputMode = InputMode.editingWakeUp ∧
    (handleEditingKey exStateC1 KeyCode.enter).wakeUpTime = exStateC1.wakeUpTime ∧
    (handleEditingKey exStateC1 KeyCode.enter).inputBuffer ≠ exStateC1.inputBuffer ∧
    (handleEditingKey exStateC1 KeyCode.enter).inputBuffer = [] := by decide

/-- Witness for C1 at the claim's concrete scenario. -/
theorem C1_witness :
    exStateC1.inputMode = InputMode.editingWakeUp ∧
    (handleEditingKey exStateC1 KeyCode.enter).inputMode = InputMode.editingWakeUp ∧
    (handleEditingKey exStateC1 KeyCode.enter).wakeUpTime = exStateC1.wakeUpTime ∧
    (handleEditingKey exStateC1 KeyCode.enter).errorMessage = some msgHourRange ∧
    (handleEditingKey exStateC1 KeyCode.enter).inputBuffer = [] := by
  refine ⟨by decide, ?_⟩
  have h := C1_invalid_wake_enter.1 exStateC1 msgHourRange (by decide) (by decide)
  exact ⟨h.1, h.2.1, h.2.2.1, h.2.2.2⟩

/-- Claim C2 (amended): `validate_time` succeeds exactly on strings that
split on `:` into two parts both parsable as `u32`, with hour `< 24` and
minute `< 60`, returning `h*3600 + m*60`.  The error kinds follow the
order of the code: format error when the part count is not two;
otherwise `"Invalid hour"` when the hour part does not parse; otherwise
`"Invalid minute"` when the minute part does not parse (even when the
hour is also out of range); otherwise the hour-range error when
`h ≥ 24`; otherwise the minute-range error when `m ≥ 60`. -/
theorem C2_validate_time_characterization :
    (∀ cs : List Char, (splitColon cs).length ≠ 2 →
      validate_time cs = VResult.err msgFormat) ∧
    (∀ (cs : List Char) (a b : List Char), splitColon cs = [a, b] →
      parseU32 a = none → validate_time cs = VResult.err msgInvalidHour) ∧
    (∀ (cs : List Char) (a b : List Char) (h : ℕ), splitColon cs = [a, b] →
      parseU32 a = some h → parseU32 b = none →
      validate_time cs = VResult.err msgInvalidMinute) ∧
    (∀ (cs : List Char) (a b : List Char) (h m : ℕ), splitColon cs = [a, b] →
      parseU32 a = some h → parseU32 b = some m → 24 ≤ h →
      validate_time cs = VResult.err msgHourRange) ∧
    (∀ (cs : List Char) (a b : List Char) (h m : ℕ), splitColon cs = [a, b] →
      parseU32 a = some h → parseU32 b = some m → h < 24 → 60 ≤ m →
      validate_time cs = VResult.err msgMinuteRange) ∧
    (∀ (cs : List Char) (a b : List Char) (h m : ℕ), splitColon cs = [a, b] →
      parseU32 a = some h → parseU32 b = some m → h < 24 → m < 60 →
      validate_time cs = VResult.ok (h * 3600 + m * 60)) := by
  refine ⟨?_, ?_, ?_, ?_, ?_, ?_⟩
  · intro cs hs
    simp [validate_time, hs]
  · intro cs a b hs ha
    simp [validate_time, hs, ha]
  · intro cs a b h hs ha hb
    simp [validate_time, hs, ha, hb]
  · intro cs a b h m hs ha hb hh
    simp [validate_time, hs, ha, hb, hh]
  · intro cs a b h m hs ha hb hh hm
    have h1 : ¬ (24 ≤ h) := by omega
    simp [validate_time, hs, ha, hb, h1, hm]
  · intro cs a b h m hs ha hb hh hm
    have h1 : ¬ (24 ≤ h) := by omega
    have h2 : ¬ (60 ≤ m) := by omega
    simp [validate_time, hs, ha, hb, h1, h2]

/-- Counterexample for C2 as stated: on `"99:aa"` the hour part is
numeric with value `99 ≥ 24`, so the claim requires an hour-related
error, but the code parses the minute part first and returns
`"Invalid minute"`, which is not one of the hour-related messages. -/
theorem C2_counterexample :
    validate_time ("99:aa").data = VResult.err msgInvalidMinute ∧
    parseU32 ("99").data = some 99 ∧
    msgInvalidMinute ≠ msgInvalidHour ∧
    msgInvalidMinute ≠ msgHourRange ∧
    msgInvalidMinute ≠ msgFormat := by decide

/-- Witness for C2 at concrete inputs: a format error for a string with
no colon, and success for `"06:30"`. -/
theorem C2_witness :
    ((splitColon ("0630").data).length ≠ 2 ∧
      validate_time ("0630").data = VResult.err msgFormat) ∧
    (splitColon ("06:30").data = [("06").data, ("30").data] ∧
      validate_time ("06:30").data = VResult.ok 23400) := by
  constructor
  · exact ⟨by decide, C2_validate_time_characterization.1 ("0630").data (by decide)⟩
  · refine ⟨by decide, ?_⟩
    have h := C2_validate_time_characterization.2.2.2.2.2 ("06:30").data
      ("06").data ("30").data 6 30 (by decide) (by decide) (by decide)
      (by decide) (by decide)
    exact h

theorem getD_eq_getElem?_opt {α : Type} (l : List α) (i : ℕ) (d : α) :
    l.getD i d = (l[i]?).getD d := by
  rw [List.getD_eq_getD_get?, List.get?_eq_getElem?]

theorem placeCells_covers_getElem? (sec : ℕ) (text : List Char) (w i : ℕ)
    (row : List Char) (hlen : row.length = w) (hc : covers sec text w i) :
    (placeCells w (tickPos sec w) text row)[i]? = some (charOf sec text w i) := by
  obtain ⟨hp, h2, h3, h4⟩ := hc
  have hidx : i - startOf (tickPos sec w) text.length w < text.length := by omega
  rw [placeCells_getElem?_written w (tickPos sec w) text row i hlen hp h2 h3 h4]
  rw [List.getElem?_eq_getElem hidx]
  unfold charOf
  rw [List.getD_eq_getElem text ' ' hidx]

theorem placeCells_not_covers_getElem? (sec : ℕ) (text : List Char) (w i : ℕ)
    (row : List Char) (hnc : ¬ covers sec text w i) (hi : i < w) :
    (placeCells w (tickPos sec w) text row)[i]? = row[i]? := by
  by_cases hp : tickPos sec w < w
  · rcases Nat.lt_or_ge i (startOf (tickPos sec w) text.length w) with h | h
    · exact placeCells_getElem?_outside w _ text row i (Or.inl h)
    · rcases Nat.lt_or_ge i (startOf (tickPos sec w) text.length w + text.length)
        with h2 | h2
      · exact absurd ⟨hp, h, h2, hi⟩ hnc
      · exact placeCells_getElem?_outside w _ text row i (Or.inr h2)
  · rw [placeCells_getElem?_of_pos_ge w _ text row (by omega)]

theorem timesChars_length (wakeS bedS : ℕ) (wd bd : List Char) (w : ℕ) :
    (timesChars wakeS bedS wd bd w).length = w := by
  simp only [timesChars]
  rw [placeCells_length, placeCells_length, placeCells_length, List.length_replicate]

theorem timesStyles_length (wakeS bedS : ℕ) (wd bd : List Char)
    (wakeSt noonSt bedSt fillSt : RStyle) (w : ℕ) :
    (timesStyles wakeS bedS wd bd wakeSt noonSt bedSt fillSt w).length = w := by
  simp only [timesStyles]
  rw [placeCells_length, placeCells_length, placeCells_length, List.length_replicate]

theorem uiTimesChars_length (st : AppState) (w : ℕ) :
    (uiTimesChars st w).length = w := by
  simp only [uiTimesChars]
  exact timesChars_length _ _ _ _ w

theorem uiTimesStyles_length (st : AppState) (colors : ColorScheme) (w : ℕ) :
    (uiTimesStyles st colors w).length = w := by
  simp only [uiTimesStyles]
  exact timesStyles_length _ _ _ _ _ _ _ _ w

/-- Claim C6: the start offset of every placed text is
`max(0, pos - L/2)` (natural subtraction) further clamped by
`min (w - L)` (saturating subtraction), so `start + L ≤ w` whenever
`L ≤ w`, `start = 0` whenever `L > w`, and `start + min(L, w) ≤ w`
always; moreover the placement loop never writes at a column `≥ w` and
never changes the row length. -/
theorem C6_text_placement (pos L w : ℕ) (hw : 2 ≤ w) :
    startOf pos L w = min (pos - L / 2) (w - L) ∧
    (L ≤ w → startOf pos L w + L ≤ w) ∧
    (w < L → startOf pos L w = 0) ∧
    startOf pos L w + min L w ≤ w ∧
    (∀ (text row : List Char) (i : ℕ), text.length = L → w ≤ i →
      (placeCells w pos text row)[i]? = row[i]?) ∧
    (∀ (text row : List Char), (placeCells w pos text row).length = row.length) := by
  refine ⟨?_, ?_, ?_, ?_, ?_, ?_⟩
  · simp only [startOf]; split <;> omega
  · intro h; simp only [startOf]; split <;> omega
  · intro h; simp only [startOf]; split <;> omega
  · simp only [startOf]; split <;> omega
  · intro text row i _ hi
    exact placeCells_getElem?_of_w_le w pos text row i hi
  · intro text row
    exact placeCells_length w pos text row

/-- Witness for C6 at `pos = 5`, `L = 5`, `w = 10`. -/
theorem C6_witness :
    2 ≤ 10 ∧ startOf 5 5 10 = min (5 - 5 / 2) (10 - 5) ∧
    startOf 5 5 10 + min 5 10 ≤ 10 :=
  ⟨by decide, (C6_text_placement 5 5 10 (by decide)).1,
    (C6_text_placement 5 5 10 (by decide)).2.2.2.1⟩

/-- Claim C3 (amended): marker time texts are placed in the source's
fixed order wake, noon, bed — not in chronological order of the seconds
values — so the final character at a column is determined by the last
marker in that fixed order whose placed text covers the column (bed
over noon over wake), and is blank when no marker covers it.  This
resolution is deterministic, and coincides with chronological precedence
only when the fixed order happens to be chronologically sorted. -/
theorem C3_marker_precedence (wakeS bedS : ℕ) (wd bd : List Char) (w i : ℕ)
    (hw : 2 ≤ w) :
    (covers bedS bd w i →
      (timesChars wakeS bedS wd bd w).getD i ' ' = charOf bedS bd w i) ∧
    (¬ covers bedS bd w i → covers 43200 noonText w i →
      (timesChars wakeS bedS wd bd w).getD i ' ' = charOf 43200 noonText w i) ∧
    (¬ covers bedS bd w i → ¬ covers 43200 noonText w i → covers wakeS wd w i →
      (timesChars wakeS bedS wd bd w).getD i ' ' = charOf wakeS wd w i) ∧
    (¬ covers bedS bd w i → ¬ covers 43200 noonText w i → ¬ covers wakeS wd w i →
      (timesChars wakeS bedS wd bd w).getD i ' ' = ' ') := by
  have hT : timesChars wakeS bedS wd bd w =
      placeCells w (tickPos bedS w) bd
        (placeCells w (tickPos 43200 w) noonText
          (placeCells w (tickPos wakeS w) wd (List.replicate w ' '))) := rfl
  have l0 : (List.replicate w ' ').length = w := List.length_replicate w ' '
  have l1 : (placeCells w (tickPos wakeS w) wd (List.replicate w ' ')).length = w := by
    rw [placeCells_length, l0]
  have l2 : (placeCells w (tickPos 43200 w) noonText
      (placeCells w (tickPos wakeS w) wd (List.replicate w ' '))).length = w := by
    rw [placeCells_length, l1]
  refine ⟨?_, ?_, ?_, ?_⟩
  · intro hc
    rw [hT, getD_eq_getElem?_opt, placeCells_covers_getElem? bedS bd w i _ l2 hc]
    rfl
  · intro hnb hcn
    have hi : i < w := hcn.2.2.2
    rw [hT, getD_eq_getElem?_opt,
      placeCells_not_covers_getElem? bedS bd w i _ hnb hi,
      placeCells_covers_getElem? 43200 noonText w i _ l1 hcn]
    rfl
  · intro hnb hnn hcw
    have hi : i < w := hcw.2.2.2
    rw [hT, getD_eq_getElem?_opt,
      placeCells_not_covers_getElem? bedS bd w i _ hnb hi,
      placeCells_not_covers_getElem? 43200 noonText w i _ hnn hi,
      placeCells_covers_getElem? wakeS wd w i _ l0 hcw]
    rfl
  · intro hnb hnn hnw
    by_cases hi : i < w
    · rw [hT, getD_eq_getElem?_opt,
        placeCells_not_covers_getElem? bedS bd w i _ hnb hi,
        placeCells_not_covers_getElem? 43200 noonText w i _ hnn hi,
        placeCells_not_covers_getElem? wakeS wd w i _ hnw hi]
      simp [List.getElem?_replicate, hi]
    · rw [List.getD_eq_default]
      rw [timesChars_length]
      omega

/-- Counterexample for C3 as stated: with wake time `"13:00"` (46800
seconds, chronologically after noon) and width 10, the wake and noon
texts land on the same span of columns; the code places wake first and
noon second, so noon's `'2'` survives at column 4, whereas placement in
chronological order of the seconds values (noon before wake) would leave
wake's `'3'` there.  The two orders produce different rows, so the
claimed chronological precedence does not hold for every assignment. -/
theorem C3_counterexample :
    parse_time ("13:00").data = 46800 ∧ 43200 < 46800 ∧
    (timesChars 46800 82800 ("13:00").data ("23:00").data 10).getD 4 ' ' = '2' ∧
    (timesCharsChrono 46800 82800 ("13:00").data ("23:00").data 10).getD 4 ' ' = '3' ∧
    timesChars 46800 82800 ("13:00").data ("23:00").data 10 ≠
      timesCharsChrono 46800 82800 ("13:00").data ("23:00").data 10 := by decide

/-- Witness for C3: with the default schedule at width 10, column 5 is
covered by the bed text and shows its character. -/
theorem C3_witness :
    2 ≤ 10 ∧ covers 82800 (("23:00").data) 10 5 ∧
    (timesChars 25200 82800 ("07:00").data ("23:00").data 10).getD 5 ' ' =
      charOf 82800 ("23:00").data 10 5 :=
  ⟨by decide, by decide,
    (C3_marker_precedence 25200 82800 ("07:00").data ("23:00").data 10 5
      (by decide)).1 (by decide)⟩

/-- Claim C4 (amended): for the marker time-label line, after per-column
style assignment the adjacent columns sharing an identical style are
merged into runs: no two consecutive emitted runs carry the same style,
and the concatenation of the runs' texts equals the per-column character
sequence.  (The progress-bar line, by contrast, is emitted one span per
column without any merging.) -/
theorem C4_times_line_merged (st : AppState) (colors : ColorScheme) (w : ℕ)
    (hw : 2 ≤ w) :
    List.Chain' (fun a b => a ≠ b) ((uiTimesSpans st colors w).map Prod.snd) ∧
    ((uiTimesSpans st colors w).map Prod.fst).flatten = uiTimesChars st w := by
  constructor
  · unfold uiTimesSpans mergeSpans
    exact mergeAux_chain _ _ _
  · unfold uiTimesSpans mergeSpans
    rw [mergeAux_flatten]
    simp only [List.nil_append]
    apply List.map_fst_zip
    rw [uiTimesChars_length, uiTimesStyles_length]

/-- Counterexample for C4 as stated: the progress-bar line at width 4
just after midnight (Analog style, default light theme) emits the spans
one per column, and columns 2 and 3 are two consecutive runs with the
identical glyph and style — adjacent equal-style columns are not merged
on this line. -/
theorem C4_counterexample :
    (uiBarSpans .analog get_default_theme.light 0 4
      ("07:00").data ("23:00").data).length = 4 ∧
    (uiBarSpans .analog get_default_theme.light 0 4
      ("07:00").data ("23:00").data)[2]? =
      some (("│").data, fgStyle RColor.darkGray) ∧
    (uiBarSpans .analog get_default_theme.light 0 4
      ("07:00").data ("23:00").data)[3]? =
      some (("│").data, fgStyle RColor.darkGray) := by decide

/-- Witness for C4: the merged time line of a concrete normal-mode state
at width 4. -/
theorem C4_witness :
    2 ≤ 4 ∧
    List.Chain' (fun a b => a ≠ b)
      ((uiTimesSpans exStateNormal get_default_theme.light 4).map Prod.snd) ∧
    ((uiTimesSpans exStateNormal get_default_theme.light 4).map Prod.fst).flatten =
      uiTimesChars exStateNormal 4 :=
  ⟨by decide,
    (C4_times_line_merged exStateNormal get_default_theme.light 4 (by decide)).1,
    (C4_times_line_merged exStateNormal get_default_theme.light 4 (by decide)).2⟩

theorem chan_le_255 (a b : ℕ) (t : ℚ) (ha : a ≤ 255) (hb : b ≤ 255)
    (ht0 : 0 ≤ t) (ht1 : t ≤ 1) :
    (a : ℚ) + ((b : ℚ) - (a : ℚ)) * t ≤ 255 := by
  have ha' : (a : ℚ) ≤ 255 := by exact_mod_cast ha
  have hb' : (b : ℚ) ≤ 255 := by exact_mod_cast hb
  nlinarith [mul_nonneg (sub_nonneg.mpr hb') ht0,
    mul_nonneg (sub_nonneg.mpr ha') (sub_nonneg.mpr ht1)]

theorem ratTrunc_le_255 (q : ℚ) (h : q ≤ 255) : ratTrunc q ≤ 255 := by
  unfold ratTrunc
  have hden : 0 < q.den := q.den_pos
  have hq : (q.num : ℚ) / (q.den : ℚ) = q := Rat.num_div_den q
  have hdq : (0 : ℚ) < (q.den : ℚ) := by exact_mod_cast hden
  have h2 : (q.num : ℚ) ≤ 255 * (q.den : ℚ) := by
    rw [← hq] at h
    exact (div_le_iff₀ hdq).mp h
  have h3 : q.num ≤ 255 * (q.den : ℤ) := by exact_mod_cast h2
  have h4 : q.num.toNat ≤ 255 * q.den := by omega
  calc q.num.toNat / q.den ≤ 255 * q.den / q.den := Nat.div_le_div_right h4
    _ = 255 := Nat.mul_div_cancel 255 hden

theorem f64toU8_eq_trunc (q : ℚ) (h : q ≤ 255) : f64toU8 q = ratTrunc q := by
  unfold f64toU8
  exact min_eq_left (ratTrunc_le_255 q h)

/-- Claim C8: in the Gradient style every filled column `i < filled` is
colored by `interpolate_color` at `t = i / w`; for RGB endpoints each
channel is `c1 + (c2 - c1) * t` truncated to a byte (the saturating
`as u8` cast never saturates, since with `t ∈ [0, 1]` and byte-valued
endpoints the value stays in `[0, 255]`); when either endpoint is not an
RGB color, the result is exactly the start color. -/
theorem C8_gradient_interpolation (colors : ColorScheme) (w filled i : ℕ)
    (r1 g1 b1 r2 g2 b2 : ℕ) (t : ℚ)
    (hfill : i < filled) (hr1 : r1 ≤ 255) (hg1 : g1 ≤ 255) (hb1 : b1 ≤ 255)
    (hr2 : r2 ≤ 255) (hg2 : g2 ≤ 255) (hb2 : b2 ≤ 255)
    (ht0 : 0 ≤ t) (ht1 : t ≤ 1) :
    baseCell .gradient colors w filled i =
      ('█', fgStyle (interpolate_color colors.progress_start colors.progress_end
        ((i : ℚ) / (w : ℚ)))) ∧
    interpolate_color (.rgb r1 g1 b1) (.rgb r2 g2 b2) t =
      .rgb (ratTrunc ((r1 : ℚ) + ((r2 : ℚ) - (r1 : ℚ)) * t))
        (ratTrunc ((g1 : ℚ) + ((g2 : ℚ) - (g1 : ℚ)) * t))
        (ratTrunc ((b1 : ℚ) + ((b2 : ℚ) - (b1 : ℚ)) * t)) ∧
    (∀ (c1 c2 : RColor) (u : ℚ), isRgb c1 = false ∨ isRgb c2 = false →
      interpolate_color c1 c2 u = c1) := by
  refine ⟨by simp [baseCell, hfill], ?_, ?_⟩
  · simp only [interpolate_color]
    rw [f64toU8_eq_trunc _ (chan_le_255 r1 r2 t hr1 hr2 ht0 ht1),
      f64toU8_eq_trunc _ (chan_le_255 g1 g2 t hg1 hg2 ht0 ht1),
      f64toU8_eq_trunc _ (chan_le_255 b1 b2 t hb1 hb2 ht0 ht1)]
  · intro c1 c2 u h
    cases c1 <;> try rfl
    cases c2 <;> try rfl
    simp [isRgb] at h

/-- Witness for C8: midpoint interpolation between black and white, and
the non-RGB fallback for the named colors cyan and blue. -/
theorem C8_witness :
    ((0 : ℚ) ≤ 1 / 2 ∧ (1 / 2 : ℚ) ≤ 1) ∧
    interpolate_color (.rgb 0 0 0) (.rgb 255 255 255) (1 / 2) =
      .rgb (ratTrunc (((0 : ℕ) : ℚ) + (((255 : ℕ) : ℚ) - ((0 : ℕ) : ℚ)) * (1 / 2)))
        (ratTrunc (((0 : ℕ) : ℚ) + (((255 : ℕ) : ℚ) - ((0 : ℕ) : ℚ)) * (1 / 2)))
        (ratTrunc (((0 : ℕ) : ℚ) + (((255 : ℕ) : ℚ) - ((0 : ℕ) : ℚ)) * (1 / 2))) ∧
    interpolate_color RColor.cyan RColor.blue (1 / 2) = RColor.cyan := by
  refine ⟨⟨by norm_num, by norm_num⟩, ?_, ?_⟩
  · exact (C8_gradient_interpolation get_default_theme.light 5 3 2 0 0 0
      255 255 255 (1 / 2) (by decide) (by decide) (by decide) (by decide)
      (by decide) (by decide) (by decide) (by norm_num) (by norm_num)).2.1
  · exact (C8_gradient_interpolation get_default_theme.light 5 3 2 0 0 0
      255 255 255 (1 / 2) (by decide) (by decide) (by decide) (by decide)
      (by decide) (by decide) (by decide) (by norm_num) (by norm_num)).2.2
      RColor.cyan RColor.blue (1 / 2) (Or.inl rfl)

/-- Claim C7: for every zero-padded `"HH:MM"` with `h ∈ [0,23]` and
`m ∈ [0,59]`, `validate_time` succeeds with `h*3600 + m*60`, `parse_time`
parses the same value, and the display formatter
`{:02}:{:02}` applied to `s/3600` and `(s%3600)/60` reproduces the same
zero-padded string. -/
theorem C7_roundtrip :
    ∀ h : ℕ, h < 24 → ∀ m : ℕ, m < 60 →
      validate_time (mkTimeStr h m) = VResult.ok (h * 3600 + m * 60) ∧
      parse_time (mkTimeStr h m) = h * 3600 + m * 60 ∧
      fmtTime (h * 3600 + m * 60) = mkTimeStr h m := by decide

/-- Witness for C7 at `06:30`. -/
theorem C7_witness :
    (6 < 24 ∧ 30 < 60) ∧
    validate_time (mkTimeStr 6 30) = VResult.ok 23400 ∧
    parse_time (mkTimeStr 6 30) = 23400 ∧
    fmtTime 23400 = mkTimeStr 6 30 := by
  refine ⟨⟨by decide, by decide⟩, ?_⟩
  have h := C7_roundtrip 6 (by decide) 30 (by decide)
  exact h

end TMeter
